import Mathlib

/-!
Verification of the OpenSCAD-to-Onshape conversion pipeline
(`src/backend/app.py`).

The single endpoint `create_from_openscad` validates the request, compiles
the OpenSCAD source to an STL mesh through an external `openscad` process,
and then drives three authenticated HTTP calls against the Onshape API
(create document, upload blob, import blob), with a partial-failure policy:
any exception raised after the document id has been captured is downgraded
to a success-style response carrying the created document's data.

The embedding below is a shallow, executable model of that module.  All
interaction with the outside world (the subprocess, the filesystem, the
three HTTP exchanges and the JSON parsing of their bodies) is supplied by
an `Env` record: each field is the result the corresponding external step
would produce, including the exception it would raise.  The pipeline is
then a total function from the request and the environment to a
`RunResult`, which records the produced outcome, the trace of external
calls issued (compiler runs and HTTP requests), and whether the two
temporary files still exist when the function returns.
-/

/-- Exceptions that can be raised inside the Python pipeline.  `httpEx`
models `fastapi.HTTPException(status_code, detail)`; `keyError` a dict
lookup failure; `osError` a filesystem error carrying its message;
`timeoutExpired` is `subprocess.TimeoutExpired` (its Python message also
embeds the command line and temp paths, which the model elides); `other`
covers any remaining exception (e.g. a JSON decode error), carrying its
`str()`. -/
inductive Exn where
  | httpEx (statusCode : Nat) (detail : String)
  | keyError (key : String)
  | osError (msg : String)
  | timeoutExpired
  | other (msg : String)
deriving DecidableEq, Repr

/-- The Python `str(e)` of each modelled exception.  Starlette's
`HTTPException.__str__` yields `f"{status_code}: {detail}"`; `str` of a
`KeyError` wraps the key in single quotes. -/
def Exn.str : Exn → String
  | .httpEx statusCode detail => toString statusCode ++ ": " ++ detail
  | .keyError key => "\x27" ++ key ++ "\x27"
  | .osError msg => msg
  | .timeoutExpired => "Command timed out after 30 seconds"
  | .other msg => msg

/-- The request body model (`CreateFromOpenSCADRequest` in `app.py`):
`openscad_code` is required, `document_name` optional. -/
structure CreateFromOpenSCADRequest where
  openscad_code : String
  document_name : Option String := none
deriving DecidableEq, Repr

/-- The response body model (`CreateFromOpenSCADResponse` in `app.py`):
every field other than `success` is optional and defaults to `None`. -/
structure CreateFromOpenSCADResponse where
  success : Bool
  docId : Option String := none
  docName : Option String := none
  url : Option String := none
  message : Option String := none
  error : Option String := none
deriving DecidableEq, Repr

/-- An HTTP response as seen through the `requests` library: the status
code and the body text.  `requests` derives `resp.ok` from the status. -/
structure HttpResponse where
  statusCode : Nat
  text : String
deriving DecidableEq, Repr

/-- `requests.Response.ok` is true exactly when the status code is below
400. -/
def HttpResponse.ok (resp : HttpResponse) : Bool :=
  resp.statusCode < 400

/-- Truthiness of Python `resp.text.strip()`: the stripped text is
non-empty exactly when the body holds some non-whitespace character. -/
def hasNonWs (s : String) : Bool :=
  s.data.any (fun c => !c.isWhitespace)

instance {ε α : Type} [DecidableEq ε] [DecidableEq α] : DecidableEq (Except ε α) :=
  fun x y =>
    match x, y with
    | .ok a, .ok b =>
        if h : a = b then .isTrue (by rw [h])
        else .isFalse (fun hab => h (Except.ok.inj hab))
    | .error a, .error b =>
        if h : a = b then .isTrue (by rw [h])
        else .isFalse (fun hab => h (Except.error.inj hab))
    | .ok _, .error _ => .isFalse (fun hab => Except.noConfusion hab)
    | .error _, .ok _ => .isFalse (fun hab => Except.noConfusion hab)

/-- The parsed JSON body of the create-document call, as far as the
pipeline reads it: whether the `"id"` key is present (and its value), and
whether the `"defaultWorkspace"` key is present (and, inside it, its own
`"id"` key).  The empty dict `{}` is `emptyDocJson`. -/
structure DocWorkspace where
  id : Option String
deriving DecidableEq, Repr

structure DocJson where
  id : Option String
  defaultWorkspace : Option DocWorkspace
deriving DecidableEq, Repr

/-- The dict `{}` returned by `onshape_api_request` on an empty body. -/
def emptyDocJson : DocJson := { id := none, defaultWorkspace := none }

/-- Python `doc["id"]`: raises `KeyError` when the key is absent. -/
def DocJson.getId (doc : DocJson) : Except Exn String :=
  match doc.id with
  | some i => .ok i
  | none => .error (.keyError "id")

/-- Python `doc["defaultWorkspace"]["id"]`: raises `KeyError` at whichever
level the key is absent. -/
def DocJson.getWorkspaceId (doc : DocJson) : Except Exn String :=
  match doc.defaultWorkspace with
  | some w =>
      match w.id with
      | some i => .ok i
      | none => .error (.keyError "id")
  | none => .error (.keyError "defaultWorkspace")

/-- The parsed JSON body of the upload-blob call; the pipeline only reads
`blob["id"]`. -/
structure BlobJson where
  id : Option String
deriving DecidableEq, Repr

def emptyBlobJson : BlobJson := { id := none }

/-- Python `blob["id"]`. -/
def BlobJson.getId (blob : BlobJson) : Except Exn String :=
  match blob.id with
  | some i => .ok i
  | none => .error (.keyError "id")

/-- `onshape_api_request` from `app.py`, for one already-performed HTTP
exchange.  The network transfer itself is abstracted: `resp` is the
response the server produced and `parsed` is what `resp.json()` would
return (or raise) on its body; `empty` is the `{}` value of the result
type, returned when the successful body is empty or whitespace-only.  A
non-success status raises `HTTPException` carrying the status code and the
body text. -/
def onshape_api_request {α : Type} (resp : HttpResponse) (parsed : Except Exn α)
    (empty : α) : Except Exn α :=
  if !resp.ok then
    .error (.httpEx resp.statusCode
      ("Onshape API error " ++ toString resp.statusCode ++ ": " ++ resp.text))
  else if hasNonWs resp.text then
    parsed
  else
    .ok empty

/-- The result of the `subprocess.run(["openscad", ...], timeout=30)`
invocation: clean exit, non-zero exit (`CalledProcessError` with its
decoded stderr), or `TimeoutExpired`. -/
inductive CompileResult where
  | exitZero
  | nonZeroExit (stderr : String)
  | timedOut
deriving DecidableEq, Repr

/-- The environment of one request: what every external step would do.
`scadWrite`/`stlCreate` are the temp-file preparation steps (`some e`
means the step raises `e`; a failing `scadWrite` is a write failure after
the file was created, a failing `stlCreate` leaves no `.stl` file);
`stlRead` yields the mesh bytes; `removeScad`/`removeStl` are the
`os.remove` calls (`some e` means the call raises, which the code
swallows); each API call is given by the HTTP response the server would
send plus the result of parsing its body; `nowIso` is
`datetime.utcnow().isoformat()`. -/
structure Env where
  nowIso : String
  scadWrite : Option Exn
  stlCreate : Option Exn
  compile : CompileResult
  stlRead : Except Exn String
  removeScad : Option Exn
  removeStl : Option Exn
  createResp : HttpResponse
  createParsed : Except Exn DocJson
  uploadResp : HttpResponse
  uploadParsed : Except Exn BlobJson
  importResp : HttpResponse
  importParsed : Except Exn Unit
deriving DecidableEq, Repr

/-- External calls the pipeline issues, in order: the compiler subprocess
(with its wall-clock timeout bound in seconds) and each HTTP request made
through `onshape_api_request` (method and path). -/
inductive Effect where
  | compilerRun (timeoutSeconds : Nat)
  | apiRequest (method : String) (path : String)
deriving DecidableEq, Repr

/-- The hardcoded base of the viewer URL in `app.py`
(`f"https://cad.onshape.com/documents/{doc_id}"`). -/
def docBaseUrl : String := "https://cad.onshape.com"

/-- `payload.document_name or f"AI Model {datetime.utcnow().isoformat()}"`:
Python `or` falls through to the generated name when the supplied name is
`None` or the empty (falsy) string. -/
def docNameOf (document_name : Option String) (nowIso : String) : String :=
  match document_name with
  | some s => if s = "" then "AI Model " ++ nowIso else s
  | none => "AI Model " ++ nowIso

/-- The message built on the full-success path. -/
def successMessage (doc_name doc_id url : String) : String :=
  "✅ Successfully created 3D model in Onshape!\n\nDocument: " ++ doc_name ++
    "\nID: " ++ doc_id ++ "\n\n🔗 View your model: " ++ url

/-- The message built on the partial-success path (same text, without the
leading check-mark emoji). -/
def partialMessage (doc_name doc_id url : String) : String :=
  "Successfully created 3D model in Onshape!\n\nDocument: " ++ doc_name ++
    "\nID: " ++ doc_id ++ "\n\n🔗 View your model: " ++ url

/-- The outcome of one call of `create_from_openscad`.  The constructor
records which exit of the Python function produced it: `success` is the
`return` at the end of the `try` block, `partialSuccess` the `return`
inside the `except` handler guarded by `if doc_id:`, `failure` the final
`return` of the handler, and `raised` an exception escaping the function
(only the pre-`try` validation `HTTPException`, which FastAPI turns into
a structured 400 error response). -/
inductive Outcome where
  | success (r : CreateFromOpenSCADResponse)
  | partialSuccess (r : CreateFromOpenSCADResponse)
  | failure (r : CreateFromOpenSCADResponse)
  | raised (e : Exn)
deriving DecidableEq, Repr

def Outcome.isRaised : Outcome → Bool
  | .raised _ => true
  | _ => false

def Outcome.isPartialSuccess : Outcome → Bool
  | .partialSuccess _ => true
  | _ => false

/-- The `except Exception` handler of `create_from_openscad`: when the
captured `doc_id` is truthy (set and non-empty) it reports partial success
with the document's data; otherwise it reports failure with `str(e)`. -/
def exceptBranch (doc_name : String) (doc_id : Option String) (e : Exn) : Outcome :=
  match doc_id with
  | some i =>
      if i = "" then
        .failure { success := false, error := some (Exn.str e) }
      else
        Outcome.partialSuccess
          { success := true, docId := some i, docName := some doc_name,
            url := some (docBaseUrl ++ "/documents/" ++ i),
            message := some (partialMessage doc_name i (docBaseUrl ++ "/documents/" ++ i)) }
  | none => .failure { success := false, error := some (Exn.str e) }

/-- What one call of `create_from_openscad` leaves behind: the outcome,
the trace of external calls issued, and whether the `.scad` and `.stl`
temporary files still exist on disk when the function returns. -/
structure RunResult where
  outcome : Outcome
  effects : List Effect
  scadFileExists : Bool
  stlFileExists : Bool
deriving DecidableEq, Repr

/-!
`create_from_openscad` is translated as a chain of top-level stage
functions, one per remaining suffix of the Python function's body: each
stage takes exactly the local state of the Python function at that point
(`doc_name`, the captured `doc_id` and `workspace_id`, the effect trace so
far and the two temp-file flags) and either short-circuits into
`exceptBranch` — the shared `except Exception` handler — or continues with
the next stage.  Composed, the stages are the straight-line body of the
endpoint, statement for statement.
-/

/-- Lines of `create_from_openscad` from the import call on: issue
POST `/partstudios/d/{doc_id}/w/{workspace_id}/import`; on an exception
fall into the handler, else build `url` and the success response. -/
def importStage (doc_name doc_id workspace_id : String) (env : Env)
    (effs : List Effect) (scadLeft stlLeft : Bool) : RunResult :=
  let effs3 := effs ++ [Effect.apiRequest "POST"
    ("/partstudios/d/" ++ doc_id ++ "/w/" ++ workspace_id ++ "/import")]
  match onshape_api_request env.importResp env.importParsed () with
  | .error e =>
      { outcome := exceptBranch doc_name (some doc_id) e,
        effects := effs3, scadFileExists := scadLeft, stlFileExists := stlLeft }
  | .ok _ =>
      let url := docBaseUrl ++ "/documents/" ++ doc_id
      let r : CreateFromOpenSCADResponse :=
        { success := true, docId := some doc_id, docName := some doc_name,
          url := some url, message := some (successMessage doc_name doc_id url) }
      { outcome := .success r,
        effects := effs3, scadFileExists := scadLeft, stlFileExists := stlLeft }

/-- The `blob["id"]` lookup performed while building the import request
body: a `KeyError` falls into the handler, else the import call is made. -/
def blobStage (doc_name doc_id workspace_id : String) (blob : BlobJson) (env : Env)
    (effs : List Effect) (scadLeft stlLeft : Bool) : RunResult :=
  match blob.getId with
  | .error e =>
      { outcome := exceptBranch doc_name (some doc_id) e,
        effects := effs, scadFileExists := scadLeft, stlFileExists := stlLeft }
  | .ok _blob_id => importStage doc_name doc_id workspace_id env effs scadLeft stlLeft

/-- Lines of `create_from_openscad` from the blob upload on: issue
POST `/blobelements/d/{doc_id}/w/{workspace_id}?encodedFilename=model.stl`
(the multipart STL payload), then read the blob id and import. -/
def uploadStage (doc_name doc_id workspace_id : String) (env : Env)
    (effs : List Effect) (scadLeft stlLeft : Bool) : RunResult :=
  let effs2 := effs ++ [Effect.apiRequest "POST"
    ("/blobelements/d/" ++ doc_id ++ "/w/" ++ workspace_id ++ "?encodedFilename=model.stl")]
  match onshape_api_request env.uploadResp env.uploadParsed emptyBlobJson with
  | .error e =>
      { outcome := exceptBranch doc_name (some doc_id) e,
        effects := effs2, scadFileExists := scadLeft, stlFileExists := stlLeft }
  | .ok blob => blobStage doc_name doc_id workspace_id blob env effs2 scadLeft stlLeft

/-- Lines `doc_id = doc["id"]` and `workspace_id = doc["defaultWorkspace"]["id"]`:
the first lookup failing falls into the handler with `doc_id` still unset
(`None`); after it succeeds the id is captured, so every later exception
carries `some doc_id`. -/
def docStage (doc_name : String) (doc : DocJson) (env : Env)
    (effs : List Effect) (scadLeft stlLeft : Bool) : RunResult :=
  match doc.getId with
  | .error e =>
      { outcome := exceptBranch doc_name none e,
        effects := effs, scadFileExists := scadLeft, stlFileExists := stlLeft }
  | .ok doc_id =>
      match doc.getWorkspaceId with
      | .error e =>
          { outcome := exceptBranch doc_name (some doc_id) e,
            effects := effs, scadFileExists := scadLeft, stlFileExists := stlLeft }
      | .ok workspace_id =>
          uploadStage doc_name doc_id workspace_id env effs scadLeft stlLeft

/-- The endpoint `create_from_openscad` of `app.py`, step for step:
compute `doc_name`, reject empty source with a 400 `HTTPException`
(raised before the `try`, hence escaping), then inside the `try`: write
the `.scad` temp file, create the `.stl` temp file, run `openscad` with a
30-second timeout (a non-zero exit is re-raised as a 500 `HTTPException`
carrying the stderr text; a timeout propagates as `TimeoutExpired`), read
the mesh, best-effort remove both temp files (one `try` around both
removes, `OSError` swallowed, so a failing first remove also skips the
second remove), issue POST `/documents`, and continue in `docStage`,
`uploadStage` and `importStage`.  Every exception raised inside the `try`
lands in `exceptBranch`. -/
def create_from_openscad (payload : CreateFromOpenSCADRequest) (env : Env) : RunResult :=
  let doc_name := docNameOf payload.document_name env.nowIso
  if payload.openscad_code = "" then
    { outcome := .raised (.httpEx 400 "openscad_code is required"),
      effects := [], scadFileExists := false, stlFileExists := false }
  else
    match env.scadWrite with
    | some e =>
        { outcome := exceptBranch doc_name none e,
          effects := [], scadFileExists := true, stlFileExists := false }
    | none =>
    match env.stlCreate with
    | some e =>
        { outcome := exceptBranch doc_name none e,
          effects := [], scadFileExists := true, stlFileExists := false }
    | none =>
    let effs0 := [Effect.compilerRun 30]
    match env.compile with
    | .nonZeroExit stderr =>
        { outcome := exceptBranch doc_name none (.httpEx 500 ("OpenSCAD error: " ++ stderr)),
          effects := effs0, scadFileExists := true, stlFileExists := true }
    | .timedOut =>
        { outcome := exceptBranch doc_name none .timeoutExpired,
          effects := effs0, scadFileExists := true, stlFileExists := true }
    | .exitZero =>
    match env.stlRead with
    | .error e =>
        { outcome := exceptBranch doc_name none e,
          effects := effs0, scadFileExists := true, stlFileExists := true }
    | .ok _stl_bytes =>
    let scadLeft := env.removeScad.isSome
    let stlLeft := env.removeScad.isSome || env.removeStl.isSome
    let effs1 := effs0 ++ [Effect.apiRequest "POST" "/documents"]
    match onshape_api_request env.createResp env.createParsed emptyDocJson with
    | .error e =>
        { outcome := exceptBranch doc_name none e,
          effects := effs1, scadFileExists := scadLeft, stlFileExists := stlLeft }
    | .ok doc => docStage doc_name doc env effs1 scadLeft stlLeft

/-- Well-formedness of a response record: when `success` is set, all the
document fields are populated and `error` is absent; when it is not,
`error` is populated and the document fields are absent. -/
def CreateFromOpenSCADResponse.wellFormed (r : CreateFromOpenSCADResponse) : Bool :=
  if r.success then
    r.docId.isSome && r.docName.isSome && r.url.isSome && r.message.isSome && r.error == none
  else
    r.error.isSome && r.docId == none && r.docName == none && r.url == none && r.message == none

/-- An outcome that was produced by one of the three `return` statements,
with a well-formed response record. -/
def Outcome.returnsWellFormed : Outcome → Bool
  | .success r => r.wellFormed
  | .partialSuccess r => r.wellFormed
  | .failure r => r.wellFormed
  | .raised _ => false

/-!
Helper lemmas: how `exceptBranch` and each stage shape the outcome, the
effect trace, and the temp-file flags.
-/

theorem exceptBranch_none (dn : String) (e : Exn) :
    exceptBranch dn none e = .failure { success := false, error := some (Exn.str e) } := rfl

theorem exceptBranch_some_ne (dn i : String) (e : Exn) (h : i ≠ "") :
    exceptBranch dn (some i) e =
      Outcome.partialSuccess
        { success := true, docId := some i, docName := some dn,
          url := some (docBaseUrl ++ "/documents/" ++ i),
          message := some (partialMessage dn i (docBaseUrl ++ "/documents/" ++ i)) } := by
  simp [exceptBranch, h]

theorem exceptBranch_some_empty (dn : String) (e : Exn) :
    exceptBranch dn (some "") e = .failure { success := false, error := some (Exn.str e) } := rfl

theorem exceptBranch_returnsWellFormed (dn : String) (doc_id : Option String) (e : Exn) :
    (exceptBranch dn doc_id e).returnsWellFormed = true := by
  unfold exceptBranch
  rcases doc_id with _ | i
  · simp [Outcome.returnsWellFormed, CreateFromOpenSCADResponse.wellFormed]
  · by_cases hi : i = "" <;>
      simp [hi, Outcome.returnsWellFormed, CreateFromOpenSCADResponse.wellFormed]

theorem importStage_returnsWellFormed (dn i w : String) (env : Env)
    (effs : List Effect) (a b : Bool) :
    (importStage dn i w env effs a b).outcome.returnsWellFormed = true := by
  unfold importStage
  cases h : onshape_api_request env.importResp env.importParsed () with
  | error e => exact exceptBranch_returnsWellFormed dn (some i) e
  | ok u => simp [Outcome.returnsWellFormed, CreateFromOpenSCADResponse.wellFormed]

theorem blobStage_returnsWellFormed (dn i w : String) (blob : BlobJson) (env : Env)
    (effs : List Effect) (a b : Bool) :
    (blobStage dn i w blob env effs a b).outcome.returnsWellFormed = true := by
  unfold blobStage
  cases h : blob.getId with
  | error e => exact exceptBranch_returnsWellFormed dn (some i) e
  | ok bid => exact importStage_returnsWellFormed dn i w env effs a b

theorem uploadStage_returnsWellFormed (dn i w : String) (env : Env)
    (effs : List Effect) (a b : Bool) :
    (uploadStage dn i w env effs a b).outcome.returnsWellFormed = true := by
  unfold uploadStage
  cases h : onshape_api_request env.uploadResp env.uploadParsed emptyBlobJson with
  | error e => exact exceptBranch_returnsWellFormed dn (some i) e
  | ok blob =>
      exact blobStage_returnsWellFormed dn i w blob env
        (effs ++ [Effect.apiRequest "POST"
          ("/blobelements/d/" ++ i ++ "/w/" ++ w ++ "?encodedFilename=model.stl")]) a b

theorem docStage_returnsWellFormed (dn : String) (doc : DocJson) (env : Env)
    (effs : List Effect) (a b : Bool) :
    (docStage dn doc env effs a b).outcome.returnsWellFormed = true := by
  unfold docStage
  cases h1 : doc.getId with
  | error e => exact exceptBranch_returnsWellFormed dn none e
  | ok doc_id =>
      cases h2 : doc.getWorkspaceId with
      | error e => exact exceptBranch_returnsWellFormed dn (some doc_id) e
      | ok w => exact uploadStage_returnsWellFormed dn doc_id w env effs a b

theorem run_returnsWellFormed (p : CreateFromOpenSCADRequest) (env : Env)
    (h : p.openscad_code ≠ "") :
    (create_from_openscad p env).outcome.returnsWellFormed = true := by
  unfold create_from_openscad
  rw [if_neg h]
  cases hsw : env.scadWrite with
  | some e => exact exceptBranch_returnsWellFormed (docNameOf p.document_name env.nowIso) none e
  | none =>
  cases hsc : env.stlCreate with
  | some e => exact exceptBranch_returnsWellFormed (docNameOf p.document_name env.nowIso) none e
  | none =>
  cases hcp : env.compile with
  | nonZeroExit stderr =>
      exact exceptBranch_returnsWellFormed (docNameOf p.document_name env.nowIso) none
        (.httpEx 500 ("OpenSCAD error: " ++ stderr))
  | timedOut =>
      exact exceptBranch_returnsWellFormed (docNameOf p.document_name env.nowIso) none .timeoutExpired
  | exitZero =>
  cases hrd : env.stlRead with
  | error e => exact exceptBranch_returnsWellFormed (docNameOf p.document_name env.nowIso) none e
  | ok bytes =>
  cases hcr : onshape_api_request env.createResp env.createParsed emptyDocJson with
  | error e => exact exceptBranch_returnsWellFormed (docNameOf p.document_name env.nowIso) none e
  | ok doc =>
      exact docStage_returnsWellFormed (docNameOf p.document_name env.nowIso) doc env
        ([Effect.compilerRun 30] ++ [Effect.apiRequest "POST" "/documents"])
        env.removeScad.isSome (env.removeScad.isSome || env.removeStl.isSome)

/-- All HTTP requests in a trace use method POST (in particular, none is a
DELETE). -/
def postOnly (effs : List Effect) : Bool :=
  effs.all fun eff =>
    match eff with
    | .apiRequest m _ => m == "POST"
    | .compilerRun _ => true

theorem postOnly_append_post (effs : List Effect) (path : String)
    (h : postOnly effs = true) :
    postOnly (effs ++ [Effect.apiRequest "POST" path]) = true := by
  simp [postOnly, List.all_append] at h ⊢
  exact h

theorem importStage_postOnly (dn i w : String) (env : Env)
    (effs : List Effect) (a b : Bool) (h : postOnly effs = true) :
    postOnly (importStage dn i w env effs a b).effects = true := by
  unfold importStage
  cases hx : onshape_api_request env.importResp env.importParsed () <;>
    exact postOnly_append_post effs _ h

theorem blobStage_postOnly (dn i w : String) (blob : BlobJson) (env : Env)
    (effs : List Effect) (a b : Bool) (h : postOnly effs = true) :
    postOnly (blobStage dn i w blob env effs a b).effects = true := by
  unfold blobStage
  cases hx : blob.getId with
  | error e => exact h
  | ok bid => exact importStage_postOnly dn i w env effs a b h

theorem uploadStage_postOnly (dn i w : String) (env : Env)
    (effs : List Effect) (a b : Bool) (h : postOnly effs = true) :
    postOnly (uploadStage dn i w env effs a b).effects = true := by
  unfold uploadStage
  cases hx : onshape_api_request env.uploadResp env.uploadParsed emptyBlobJson with
  | error e => exact postOnly_append_post effs _ h
  | ok blob =>
      exact blobStage_postOnly dn i w blob env _ a b (postOnly_append_post effs _ h)

theorem docStage_postOnly (dn : String) (doc : DocJson) (env : Env)
    (effs : List Effect) (a b : Bool) (h : postOnly effs = true) :
    postOnly (docStage dn doc env effs a b).effects = true := by
  unfold docStage
  cases h1 : doc.getId with
  | error e => exact h
  | ok doc_id =>
      cases h2 : doc.getWorkspaceId with
      | error e => exact h
      | ok w => exact uploadStage_postOnly dn doc_id w env effs a b h

theorem run_postOnly (p : CreateFromOpenSCADRequest) (env : Env) :
    postOnly (create_from_openscad p env).effects = true := by
  unfold create_from_openscad
  by_cases h : p.openscad_code = ""
  · rw [if_pos h]; rfl
  rw [if_neg h]
  cases hsw : env.scadWrite with
  | some e => rfl
  | none =>
  cases hsc : env.stlCreate with
  | some e => rfl
  | none =>
  cases hcp : env.compile with
  | nonZeroExit stderr => rfl
  | timedOut => rfl
  | exitZero =>
  cases hrd : env.stlRead with
  | error e => rfl
  | ok bytes =>
  cases hcr : onshape_api_request env.createResp env.createParsed emptyDocJson with
  | error e => rfl
  | ok doc =>
      exact docStage_postOnly (docNameOf p.document_name env.nowIso) doc env
        ([Effect.compilerRun 30] ++ [Effect.apiRequest "POST" "/documents"])
        env.removeScad.isSome (env.removeScad.isSome || env.removeStl.isSome) (by rfl)

/-!
The outcome of every stage, and of the whole pipeline, is independent of
the `os.remove` results and of the effect trace and file flags threaded
through: removal failures are swallowed without altering anything the
caller sees.
-/

theorem importStage_outcome_env (dn i w : String) (env env2 : Env)
    (h1 : env2.importResp = env.importResp) (h2 : env2.importParsed = env.importParsed)
    (effs effs2 : List Effect) (a b a2 b2 : Bool) :
    (importStage dn i w env2 effs2 a2 b2).outcome = (importStage dn i w env effs a b).outcome := by
  unfold importStage
  rw [h1, h2]
  cases hx : onshape_api_request env.importResp env.importParsed () <;> rfl

theorem blobStage_outcome_env (dn i w : String) (blob : BlobJson) (env env2 : Env)
    (h1 : env2.importResp = env.importResp) (h2 : env2.importParsed = env.importParsed)
    (effs effs2 : List Effect) (a b a2 b2 : Bool) :
    (blobStage dn i w blob env2 effs2 a2 b2).outcome =
      (blobStage dn i w blob env effs a b).outcome := by
  unfold blobStage
  cases hx : blob.getId with
  | error e => rfl
  | ok bid => exact importStage_outcome_env dn i w env env2 h1 h2 effs effs2 a b a2 b2

theorem uploadStage_outcome_env (dn i w : String) (env env2 : Env)
    (h1 : env2.importResp = env.importResp) (h2 : env2.importParsed = env.importParsed)
    (h3 : env2.uploadResp = env.uploadResp) (h4 : env2.uploadParsed = env.uploadParsed)
    (effs effs2 : List Effect) (a b a2 b2 : Bool) :
    (uploadStage dn i w env2 effs2 a2 b2).outcome = (uploadStage dn i w env effs a b).outcome := by
  unfold uploadStage
  rw [h3, h4]
  cases hx : onshape_api_request env.uploadResp env.uploadParsed emptyBlobJson with
  | error e => rfl
  | ok blob => exact blobStage_outcome_env dn i w blob env env2 h1 h2 _ _ a b a2 b2

theorem docStage_outcome_env (dn : String) (doc : DocJson) (env env2 : Env)
    (h1 : env2.importResp = env.importResp) (h2 : env2.importParsed = env.importParsed)
    (h3 : env2.uploadResp = env.uploadResp) (h4 : env2.uploadParsed = env.uploadParsed)
    (effs effs2 : List Effect) (a b a2 b2 : Bool) :
    (docStage dn doc env2 effs2 a2 b2).outcome = (docStage dn doc env effs a b).outcome := by
  unfold docStage
  cases hx : doc.getId with
  | error e => rfl
  | ok doc_id =>
      cases hy : doc.getWorkspaceId with
      | error e => rfl
      | ok w => exact uploadStage_outcome_env dn doc_id w env env2 h1 h2 h3 h4 effs effs2 a b a2 b2

theorem run_outcome_removes (p : CreateFromOpenSCADRequest) (env : Env)
    (rs rstl : Option Exn) :
    (create_from_openscad p { env with removeScad := rs, removeStl := rstl }).outcome =
      (create_from_openscad p env).outcome := by
  simp only [create_from_openscad]
  by_cases h : p.openscad_code = ""
  · simp [h]
  simp only [if_neg h]
  cases hsw : env.scadWrite with
  | some e => rfl
  | none =>
  cases hsc : env.stlCreate with
  | some e => rfl
  | none =>
  cases hcp : env.compile with
  | nonZeroExit stderr => rfl
  | timedOut => rfl
  | exitZero =>
  cases hrd : env.stlRead with
  | error e => rfl
  | ok bytes =>
  cases hcr : onshape_api_request env.createResp env.createParsed emptyDocJson with
  | error e => rfl
  | ok doc =>
      exact docStage_outcome_env (docNameOf p.document_name env.nowIso) doc env
        { env with removeScad := rs, removeStl := rstl } rfl rfl rfl rfl _ _ _ _ _ _

/-!
Path-computation lemmas: what the whole pipeline evaluates to on the main
execution paths.
-/

theorem run_emptyCode (p : CreateFromOpenSCADRequest) (env : Env)
    (h : p.openscad_code = "") :
    create_from_openscad p env =
      { outcome := .raised (.httpEx 400 "openscad_code is required"),
        effects := [], scadFileExists := false, stlFileExists := false } := by
  unfold create_from_openscad
  rw [if_pos h]

theorem run_compileFail (p : CreateFromOpenSCADRequest) (env : Env) (stderr : String)
    (h : p.openscad_code ≠ "") (hsw : env.scadWrite = none) (hsc : env.stlCreate = none)
    (hcp : env.compile = .nonZeroExit stderr) :
    create_from_openscad p env =
      { outcome := .failure
          { success := false, error := some ("500: OpenSCAD error: " ++ stderr) },
        effects := [Effect.compilerRun 30],
        scadFileExists := true, stlFileExists := true } := by
  unfold create_from_openscad
  rw [if_neg h, hsw, hsc, hcp]
  rfl

theorem run_timedOut (p : CreateFromOpenSCADRequest) (env : Env)
    (h : p.openscad_code ≠ "") (hsw : env.scadWrite = none) (hsc : env.stlCreate = none)
    (hcp : env.compile = .timedOut) :
    create_from_openscad p env =
      { outcome := .failure
          { success := false, error := some (Exn.str .timeoutExpired) },
        effects := [Effect.compilerRun 30],
        scadFileExists := true, stlFileExists := true } := by
  unfold create_from_openscad
  rw [if_neg h, hsw, hsc, hcp]
  rfl

theorem run_reaches_docStage (p : CreateFromOpenSCADRequest) (env : Env)
    (bytes : String) (doc : DocJson)
    (h : p.openscad_code ≠ "") (hsw : env.scadWrite = none) (hsc : env.stlCreate = none)
    (hcp : env.compile = .exitZero) (hrd : env.stlRead = .ok bytes)
    (hcr : onshape_api_request env.createResp env.createParsed emptyDocJson = .ok doc) :
    create_from_openscad p env =
      docStage (docNameOf p.document_name env.nowIso) doc env
        [Effect.compilerRun 30, Effect.apiRequest "POST" "/documents"]
        env.removeScad.isSome (env.removeScad.isSome || env.removeStl.isSome) := by
  unfold create_from_openscad
  rw [if_neg h, hsw, hsc, hcp, hrd, hcr]
  rfl

theorem docStage_known (dn i w : String) (env : Env) (effs : List Effect) (a b : Bool) :
    docStage dn { id := some i, defaultWorkspace := some { id := some w } } env effs a b =
      uploadStage dn i w env effs a b := rfl

theorem uploadStage_success (dn i w : String) (env : Env) (effs : List Effect) (a b : Bool)
    (blob_id : String)
    (hup : onshape_api_request env.uploadResp env.uploadParsed emptyBlobJson =
      .ok { id := some blob_id })
    (him : onshape_api_request env.importResp env.importParsed () = .ok ()) :
    (uploadStage dn i w env effs a b).outcome =
      Outcome.success
        { success := true, docId := some i, docName := some dn,
          url := some (docBaseUrl ++ "/documents/" ++ i),
          message := some (successMessage dn i (docBaseUrl ++ "/documents/" ++ i)) } := by
  unfold uploadStage blobStage importStage
  rw [hup, him]
  rfl

theorem uploadStage_uploadFail (dn i w : String) (env : Env) (effs : List Effect) (a b : Bool)
    (e : Exn) (hi : i ≠ "")
    (hup : onshape_api_request env.uploadResp env.uploadParsed emptyBlobJson = .error e) :
    (uploadStage dn i w env effs a b).outcome =
      Outcome.partialSuccess
        { success := true, docId := some i, docName := some dn,
          url := some (docBaseUrl ++ "/documents/" ++ i),
          message := some (partialMessage dn i (docBaseUrl ++ "/documents/" ++ i)) } := by
  unfold uploadStage
  rw [hup]
  exact exceptBranch_some_ne dn i e hi

theorem uploadStage_importFail (dn i w : String) (env : Env) (effs : List Effect) (a b : Bool)
    (blob_id : String) (e : Exn) (hi : i ≠ "")
    (hup : onshape_api_request env.uploadResp env.uploadParsed emptyBlobJson =
      .ok { id := some blob_id })
    (him : onshape_api_request env.importResp env.importParsed () = .error e) :
    (uploadStage dn i w env effs a b).outcome =
      Outcome.partialSuccess
        { success := true, docId := some i, docName := some dn,
          url := some (docBaseUrl ++ "/documents/" ++ i),
          message := some (partialMessage dn i (docBaseUrl ++ "/documents/" ++ i)) } := by
  unfold uploadStage blobStage importStage
  rw [hup, him]
  exact exceptBranch_some_ne dn i e hi

theorem importStage_fs (dn i w : String) (env : Env) (effs : List Effect) (a b : Bool) :
    (importStage dn i w env effs a b).scadFileExists = a ∧
      (importStage dn i w env effs a b).stlFileExists = b := by
  unfold importStage
  cases hx : onshape_api_request env.importResp env.importParsed () <;> exact ⟨rfl, rfl⟩

theorem blobStage_fs (dn i w : String) (blob : BlobJson) (env : Env)
    (effs : List Effect) (a b : Bool) :
    (blobStage dn i w blob env effs a b).scadFileExists = a ∧
      (blobStage dn i w blob env effs a b).stlFileExists = b := by
  unfold blobStage
  cases hx : blob.getId with
  | error e => exact ⟨rfl, rfl⟩
  | ok bid => exact importStage_fs dn i w env effs a b

theorem uploadStage_fs (dn i w : String) (env : Env) (effs : List Effect) (a b : Bool) :
    (uploadStage dn i w env effs a b).scadFileExists = a ∧
      (uploadStage dn i w env effs a b).stlFileExists = b := by
  unfold uploadStage
  cases hx : onshape_api_request env.uploadResp env.uploadParsed emptyBlobJson with
  | error e => exact ⟨rfl, rfl⟩
  | ok blob => exact blobStage_fs dn i w blob env _ a b

theorem docStage_fs (dn : String) (doc : DocJson) (env : Env)
    (effs : List Effect) (a b : Bool) :
    (docStage dn doc env effs a b).scadFileExists = a ∧
      (docStage dn doc env effs a b).stlFileExists = b := by
  unfold docStage
  cases h1 : doc.getId with
  | error e => exact ⟨rfl, rfl⟩
  | ok doc_id =>
      cases h2 : doc.getWorkspaceId with
      | error e => exact ⟨rfl, rfl⟩
      | ok w => exact uploadStage_fs dn doc_id w env effs a b

theorem run_fs_after_read (p : CreateFromOpenSCADRequest) (env : Env) (bytes : String)
    (h : p.openscad_code ≠ "") (hsw : env.scadWrite = none) (hsc : env.stlCreate = none)
    (hcp : env.compile = .exitZero) (hrd : env.stlRead = .ok bytes) :
    (create_from_openscad p env).scadFileExists = env.removeScad.isSome ∧
      (create_from_openscad p env).stlFileExists =
        (env.removeScad.isSome || env.removeStl.isSome) := by
  unfold create_from_openscad
  rw [if_neg h, hsw, hsc, hcp, hrd]
  cases hcr : onshape_api_request env.createResp env.createParsed emptyDocJson with
  | error e => exact ⟨rfl, rfl⟩
  | ok doc =>
      exact docStage_fs (docNameOf p.document_name env.nowIso) doc env
        ([Effect.compilerRun 30] ++ [Effect.apiRequest "POST" "/documents"])
        env.removeScad.isSome (env.removeScad.isSome || env.removeStl.isSome)

/-!
Concrete inputs used by the witnesses and counterexamples below.
-/

/-- A request with non-empty OpenSCAD source and no supplied name. -/
def reqOk : CreateFromOpenSCADRequest := { openscad_code := "cube(1);" }

/-- A request whose source is whitespace-only (a single blank). -/
def reqWs : CreateFromOpenSCADRequest := { openscad_code := " " }

/-- An environment in which every external step succeeds: the compiler
exits cleanly, every API call answers 200 with a parseable body (the
third call with an empty body), and both removals succeed. -/
def envOk : Env :=
  { nowIso := "2025-01-01T00:00:00"
    scadWrite := none
    stlCreate := none
    compile := .exitZero
    stlRead := .ok "solid model"
    removeScad := none
    removeStl := none
    createResp := { statusCode := 200, text := "doc json" }
    createParsed := .ok { id := some "d1", defaultWorkspace := some { id := some "w1" } }
    uploadResp := { statusCode := 200, text := "blob json" }
    uploadParsed := .ok { id := some "b1" }
    importResp := { statusCode := 200, text := "" }
    importParsed := .ok () }

/-- `envOk` except that the upload call answers HTTP 500. -/
def envUploadFail : Env := { envOk with uploadResp := { statusCode := 500, text := "oops" } }

/-- `envOk` except that the document is created with the empty string as
its id, and the upload call then answers HTTP 500. -/
def envEmptyId : Env :=
  { envOk with
      createParsed := .ok { id := some "", defaultWorkspace := some { id := some "w1" } },
      uploadResp := { statusCode := 500, text := "upload failed" } }

/-- `envOk` except that the compiler exits non-zero. -/
def envCompileFail : Env := { envOk with compile := .nonZeroExit "boom" }

/-- C2: when compilation and all three remote calls succeed,
`create_from_openscad` produces the Success outcome whose `docId` is the
id returned by the create-document call and whose `url` is the document
base URL, then `/documents/`, then that id, together with the document
name and the confirmation message. -/
theorem C2_success_url (p : CreateFromOpenSCADRequest) (env : Env)
    (bytes i w blob_id : String)
    (h : p.openscad_code ≠ "") (hsw : env.scadWrite = none) (hsc : env.stlCreate = none)
    (hcp : env.compile = .exitZero) (hrd : env.stlRead = .ok bytes)
    (hcr : onshape_api_request env.createResp env.createParsed emptyDocJson =
      .ok { id := some i, defaultWorkspace := some { id := some w } })
    (hup : onshape_api_request env.uploadResp env.uploadParsed emptyBlobJson =
      .ok { id := some blob_id })
    (him : onshape_api_request env.importResp env.importParsed () = .ok ()) :
    (create_from_openscad p env).outcome =
      Outcome.success
        { success := true, docId := some i,
          docName := some (docNameOf p.document_name env.nowIso),
          url := some (docBaseUrl ++ "/documents/" ++ i),
          message := some (successMessage (docNameOf p.document_name env.nowIso) i
            (docBaseUrl ++ "/documents/" ++ i)) } := by
  rw [run_reaches_docStage p env bytes _ h hsw hsc hcp hrd hcr, docStage_known]
  exact uploadStage_success (docNameOf p.document_name env.nowIso) i w env
    [Effect.compilerRun 30, Effect.apiRequest "POST" "/documents"]
    env.removeScad.isSome (env.removeScad.isSome || env.removeStl.isSome) blob_id hup him

/-- Witness for C2 at a concrete fully-successful input. -/
theorem C2_witness :
    (create_from_openscad reqOk envOk).outcome =
      Outcome.success
        { success := true, docId := some "d1",
          docName := some "AI Model 2025-01-01T00:00:00",
          url := some "https://cad.onshape.com/documents/d1",
          message := some (successMessage "AI Model 2025-01-01T00:00:00" "d1"
            "https://cad.onshape.com/documents/d1") } :=
  C2_success_url reqOk envOk "solid model" "d1" "w1" "b1"
    (by decide) rfl rfl rfl rfl (by decide) (by decide) (by decide)

/-- C1, as stated, is false on the code: `if doc_id:` in the handler tests
Python truthiness, so a document created with the empty string as its id
is reported as a plain Failure even though `createDocument` succeeded and
the id was captured.  Here the create call succeeds with id `""`, the
upload call then raises, and the outcome is Failure, not PartialSuccess. -/
theorem C1_counterexample :
    (onshape_api_request envEmptyId.createResp envEmptyId.createParsed emptyDocJson =
        .ok { id := some "", defaultWorkspace := some { id := some "w1" } }) ∧
    (∃ e, onshape_api_request envEmptyId.uploadResp envEmptyId.uploadParsed emptyBlobJson =
        .error e) ∧
    (create_from_openscad reqOk envEmptyId).outcome.isPartialSuccess = false ∧
    (create_from_openscad reqOk envEmptyId).outcome =
      Outcome.failure
        { success := false,
          error := some "500: Onshape API error 500: upload failed" } := by
  refine ⟨by decide, ⟨.httpEx 500 "Onshape API error 500: upload failed", by decide⟩, ?_, ?_⟩ <;>
    decide

/-- C1 (amended): if `createDocument` succeeds with a NON-EMPTY document id
(which is then captured) and `uploadBlob` or `importBlob` raises, the
outcome is PartialSuccess carrying that id, the document name, the viewer
URL and the success-style message. -/
theorem C1_partialSuccess_of_nonempty_id (p : CreateFromOpenSCADRequest) (env : Env)
    (bytes i w : String) (hi : i ≠ "")
    (h : p.openscad_code ≠ "") (hsw : env.scadWrite = none) (hsc : env.stlCreate = none)
    (hcp : env.compile = .exitZero) (hrd : env.stlRead = .ok bytes)
    (hcr : onshape_api_request env.createResp env.createParsed emptyDocJson =
      .ok { id := some i, defaultWorkspace := some { id := some w } })
    (hfail : (∃ e, onshape_api_request env.uploadResp env.uploadParsed emptyBlobJson = .error e) ∨
      (∃ blob_id e,
        onshape_api_request env.uploadResp env.uploadParsed emptyBlobJson =
          .ok { id := some blob_id } ∧
        onshape_api_request env.importResp env.importParsed () = .error e)) :
    (create_from_openscad p env).outcome =
      Outcome.partialSuccess
        { success := true, docId := some i,
          docName := some (docNameOf p.document_name env.nowIso),
          url := some (docBaseUrl ++ "/documents/" ++ i),
          message := some (partialMessage (docNameOf p.document_name env.nowIso) i
            (docBaseUrl ++ "/documents/" ++ i)) } := by
  rw [run_reaches_docStage p env bytes _ h hsw hsc hcp hrd hcr, docStage_known]
  rcases hfail with ⟨e, hup⟩ | ⟨blob_id, e, hup, him⟩
  · exact uploadStage_uploadFail (docNameOf p.document_name env.nowIso) i w env
      [Effect.compilerRun 30, Effect.apiRequest "POST" "/documents"]
      env.removeScad.isSome (env.removeScad.isSome || env.removeStl.isSome) e hi hup
  · exact uploadStage_importFail (docNameOf p.document_name env.nowIso) i w env
      [Effect.compilerRun 30, Effect.apiRequest "POST" "/documents"]
      env.removeScad.isSome (env.removeScad.isSome || env.removeStl.isSome) blob_id e hi hup him

/-- Witness for the amended C1: upload answers 500 after a successful
create, and the outcome is the PartialSuccess record. -/
theorem C1_witness :
    (create_from_openscad reqOk envUploadFail).outcome =
      Outcome.partialSuccess
        { success := true, docId := some "d1",
          docName := some "AI Model 2025-01-01T00:00:00",
          url := some "https://cad.onshape.com/documents/d1",
          message := some (partialMessage "AI Model 2025-01-01T00:00:00" "d1"
            "https://cad.onshape.com/documents/d1") } :=
  C1_partialSuccess_of_nonempty_id reqOk envUploadFail "solid model" "d1" "w1"
    (by decide) (by decide) rfl rfl rfl rfl (by decide)
    (Or.inl ⟨.httpEx 500 "Onshape API error 500: oops", by decide⟩)

/-- C3, as stated, is false on the code: the validation check is
`if not openscad_code:`, which rejects only the EMPTY string.  A
whitespace-only source (a single blank) passes validation and the compiler
subprocess is invoked (and here fails), so the "no compiler call" part of
the claim does not hold for whitespace-only input. -/
theorem C3_counterexample :
    (∀ c ∈ reqWs.openscad_code.data, c.isWhitespace = true) ∧
    reqWs.openscad_code ≠ "" ∧
    Effect.compilerRun 30 ∈ (create_from_openscad reqWs envCompileFail).effects ∧
    (create_from_openscad reqWs envCompileFail).outcome.isRaised = false := by
  refine ⟨?_, ?_, ?_, ?_⟩ <;> decide

/-- C3 (amended): only requests whose source is the EMPTY string are
rejected by validation; the rejection is the 400 `HTTPException` raised
before the `try` block, and it happens with zero side effects: no
compiler run, no HTTP request, no temporary file. -/
theorem C3_empty_source_rejected (p : CreateFromOpenSCADRequest) (env : Env)
    (h : p.openscad_code = "") :
    create_from_openscad p env =
      { outcome := .raised (.httpEx 400 "openscad_code is required"),
        effects := [], scadFileExists := false, stlFileExists := false } :=
  run_emptyCode p env h

/-- Witness for the amended C3 at the empty request. -/
theorem C3_witness :
    create_from_openscad { openscad_code := "" } envOk =
      { outcome := .raised (.httpEx 400 "openscad_code is required"),
        effects := [], scadFileExists := false, stlFileExists := false } :=
  C3_empty_source_rejected { openscad_code := "" } envOk rfl

/-- C4, as stated, is false on the code: the two `os.remove` calls sit
after the mesh read inside the `try` block, so on a compiler failure the
raised exception jumps straight to the handler and neither temporary file
is removed.  Here the compiler exits non-zero, the pipeline completes
with a Failure outcome, and both files still exist. -/
theorem C4_counterexample :
    (create_from_openscad reqOk envCompileFail).scadFileExists = true ∧
    (create_from_openscad reqOk envCompileFail).stlFileExists = true ∧
    (create_from_openscad reqOk envCompileFail).outcome =
      .failure { success := false, error := some "500: OpenSCAD error: boom" } := by
  refine ⟨?_, ?_, ?_⟩ <;> decide

/-- C4 (amended): on every execution that reaches the mesh read (the
compiler succeeded and the output file was read), removal of both
temporary files is attempted and, when the removals succeed, both files
are gone when the pipeline completes; a failing removal is swallowed — for
any environment the outcome is the same as with succeeding removals.  (On
paths failing before the mesh read, no removal happens.) -/
theorem C4_cleanup_after_read (p : CreateFromOpenSCADRequest) (env env2 : Env)
    (bytes : String)
    (h : p.openscad_code ≠ "") (hsw : env.scadWrite = none) (hsc : env.stlCreate = none)
    (hcp : env.compile = .exitZero) (hrd : env.stlRead = .ok bytes)
    (hrs : env.removeScad = none) (hrstl : env.removeStl = none) :
    ((create_from_openscad p env).scadFileExists = false ∧
      (create_from_openscad p env).stlFileExists = false) ∧
    (create_from_openscad p env2).outcome =
      (create_from_openscad p { env2 with removeScad := none, removeStl := none }).outcome := by
  constructor
  · have h2 := run_fs_after_read p env bytes h hsw hsc hcp hrd
    rw [hrs, hrstl] at h2
    exact h2
  · exact (run_outcome_removes p env2 none none).symm

/-- Witness for the amended C4: concretely, after a full success both
files are gone, and an environment whose `os.remove` calls fail yields
the same outcome as one where they succeed. -/
theorem C4_witness :
    ((create_from_openscad reqOk envOk).scadFileExists = false ∧
      (create_from_openscad reqOk envOk).stlFileExists = false) ∧
    (create_from_openscad reqOk { envOk with removeScad := some (.osError "file locked") }).outcome =
      (create_from_openscad reqOk
        { { envOk with removeScad := some (.osError "file locked") } with
            removeScad := none, removeStl := none }).outcome :=
  C4_cleanup_after_read reqOk envOk { envOk with removeScad := some (.osError "file locked") }
    "solid model" (by decide) rfl rfl rfl rfl rfl rfl

/-- C5: a compiler failure — non-zero exit or exceeding the 30-second
bound — yields a pure Failure outcome carrying the error's textual detail
(the stderr text, or the timeout message), and the effect trace holds the
single compiler invocation: no Document Client call is made. -/
theorem C5_compiler_failure_pure_failure (p : CreateFromOpenSCADRequest) (env : Env)
    (h : p.openscad_code ≠ "") (hsw : env.scadWrite = none) (hsc : env.stlCreate = none) :
    (∀ stderr, env.compile = .nonZeroExit stderr →
      create_from_openscad p env =
        { outcome := .failure
            { success := false, error := some ("500: OpenSCAD error: " ++ stderr) },
          effects := [Effect.compilerRun 30],
          scadFileExists := true, stlFileExists := true }) ∧
    (env.compile = .timedOut →
      create_from_openscad p env =
        { outcome := .failure
            { success := false, error := some (Exn.str .timeoutExpired) },
          effects := [Effect.compilerRun 30],
          scadFileExists := true, stlFileExists := true }) :=
  ⟨fun stderr hcp => run_compileFail p env stderr h hsw hsc hcp,
   fun hcp => run_timedOut p env h hsw hsc hcp⟩

/-- Witness for C5 at a concrete non-zero compiler exit. -/
theorem C5_witness :
    create_from_openscad reqOk envCompileFail =
      { outcome := .failure
          { success := false, error := some "500: OpenSCAD error: boom" },
        effects := [Effect.compilerRun 30],
        scadFileExists := true, stlFileExists := true } :=
  (C5_compiler_failure_pure_failure reqOk envCompileFail (by decide) rfl rfl).1 "boom" rfl

/-- C6: for every request and every environment — that is, whatever any
external step does, including raising — the pipeline produces a
well-formed response record through one of its three `return` statements,
except in exactly one case: an empty source, where the structured 400
validation `HTTPException` (FastAPI's designed error channel, turned by
the framework into a structured error response) is raised before the
`try`.  No other exception ever escapes `create_from_openscad`. -/
theorem C6_total_outcome (p : CreateFromOpenSCADRequest) (env : Env) :
    (create_from_openscad p env).outcome.returnsWellFormed = true ∨
      (p.openscad_code = "" ∧
        (create_from_openscad p env).outcome =
          .raised (.httpEx 400 "openscad_code is required")) := by
  by_cases h : p.openscad_code = ""
  · exact Or.inr ⟨h, by rw [run_emptyCode p env h]⟩
  · exact Or.inl (run_returnsWellFormed p env h)

/-- C7: in `onshape_api_request`, a non-success HTTP status (400 or above,
the negation of `requests`' `resp.ok`) raises the `HTTPException` carrying
the status code and the body text, and a successful response whose body is
empty or whitespace-only yields the empty structured result instead of a
parse attempt. -/
theorem C7_api_error_policy {α : Type} (resp : HttpResponse) (parsed : Except Exn α)
    (emptyVal : α) :
    (resp.ok = false →
      onshape_api_request resp parsed emptyVal =
        .error (.httpEx resp.statusCode
          ("Onshape API error " ++ toString resp.statusCode ++ ": " ++ resp.text))) ∧
    (resp.ok = true → hasNonWs resp.text = false →
      onshape_api_request resp parsed emptyVal = .ok emptyVal) := by
  constructor
  · intro h
    simp [onshape_api_request, h]
  · intro h1 h2
    simp [onshape_api_request, h1, h2]

/-- Witness for C7: a 404 with body text raises the detail-carrying error;
a 200 with a whitespace-only body (even though its `parsed` field would
raise) returns the empty dict. -/
theorem C7_witness :
    (onshape_api_request { statusCode := 404, text := "missing" }
        (Except.ok emptyDocJson) emptyDocJson =
      .error (.httpEx 404 "Onshape API error 404: missing")) ∧
    (onshape_api_request { statusCode := 200, text := "  " }
        (Except.error (Exn.other "json decode error")) emptyDocJson = .ok emptyDocJson) :=
  ⟨(C7_api_error_policy { statusCode := 404, text := "missing" }
      (Except.ok emptyDocJson) emptyDocJson).1 (by decide),
   (C7_api_error_policy { statusCode := 200, text := "  " }
      (Except.error (Exn.other "json decode error")) emptyDocJson).2 (by decide) (by decide)⟩

/-- C8: the default document name generated when no name is supplied is
the literal prefix `AI Model ` followed by the ISO timestamp, so two
requests processed at different timestamps get different default names. -/
theorem C8_default_name (t1 t2 : String) (h : t1 ≠ t2) :
    docNameOf none t1 = "AI Model " ++ t1 ∧ docNameOf none t1 ≠ docNameOf none t2 := by
  refine ⟨rfl, ?_⟩
  intro heq
  apply h
  have heq2 : "AI Model " ++ t1 = "AI Model " ++ t2 := heq
  have hd := congrArg String.data heq2
  rw [String.data_append, String.data_append] at hd
  exact String.ext (List.append_cancel_left hd)

/-- Witness for C8 at two concrete timestamps one second apart. -/
theorem C8_witness :
    docNameOf none "2025-01-01T00:00:00" = "AI Model " ++ "2025-01-01T00:00:00" ∧
      docNameOf none "2025-01-01T00:00:00" ≠ docNameOf none "2025-01-01T00:00:01" :=
  C8_default_name "2025-01-01T00:00:00" "2025-01-01T00:00:01" (by decide)

/-- C9: every HTTP request the pipeline ever issues, on every path, uses
method POST (create document, upload blob, import blob); no
document-deletion request exists anywhere in the pipeline, so a created
document is never deleted by it. -/
theorem C9_never_deletes (p : CreateFromOpenSCADRequest) (env : Env) :
    postOnly (create_from_openscad p env).effects = true :=
  run_postOnly p env

/-- C10: every response record produced by a `return` of
`create_from_openscad` is well-formed — `success = true` comes with all
four document fields populated and no `error`; `success = false` comes
with `error` populated and nothing else — and the Success and
PartialSuccess variants agree on the `success` flag and the `error` field,
so those two fields cannot distinguish them. -/
theorem C10_response_invariant :
    (∀ (p : CreateFromOpenSCADRequest) (env : Env),
        (create_from_openscad p env).outcome.returnsWellFormed = true ∨
          (create_from_openscad p env).outcome.isRaised = true) ∧
    (∃ (p1 : CreateFromOpenSCADRequest) (env1 : Env) (p2 : CreateFromOpenSCADRequest)
        (env2 : Env) (r1 r2 : CreateFromOpenSCADResponse),
        (create_from_openscad p1 env1).outcome = .success r1 ∧
        (create_from_openscad p2 env2).outcome = .partialSuccess r2 ∧
        r1.success = r2.success ∧ r1.error = r2.error) := by
  constructor
  · intro p env
    by_cases h : p.openscad_code = ""
    · exact Or.inr (by rw [run_emptyCode p env h]; rfl)
    · exact Or.inl (run_returnsWellFormed p env h)
  · refine ⟨reqOk, envOk, reqOk, envUploadFail,
      { success := true, docId := some "d1",
        docName := some "AI Model 2025-01-01T00:00:00",
        url := some "https://cad.onshape.com/documents/d1",
        message := some (successMessage "AI Model 2025-01-01T00:00:00" "d1"
          "https://cad.onshape.com/documents/d1") },
      { success := true, docId := some "d1",
        docName := some "AI Model 2025-01-01T00:00:00",
        url := some "https://cad.onshape.com/documents/d1",
        message := some (partialMessage "AI Model 2025-01-01T00:00:00" "d1"
          "https://cad.onshape.com/documents/d1") },
      by decide, by decide, rfl, rfl⟩
